import Mathlib

/-!
Verification of the ReadGNSS mesh-code codec (apps/mesh.py) and the
semi-dynamic tectonic correction engine (apps/semidynamic.py, apps/config.py).

The Python code is shallowly embedded over the rationals: every Python float
value is modelled as an exact rational, Python int() (truncation toward zero)
becomes pyInt, divmod on floats becomes pyDivmod (floor division with
remainder), math.modf becomes pyModf, round(x, 1) becomes pyRound1
(round half to even at one decimal), str() of an integer becomes pyStr, and
int() applied to a string becomes pyIntOfStr.  Fallible operations return
Option or Except.  Definitions follow the source line by line; the relevant
source locations are cited in each doc comment.
-/

namespace ReadGNSS

/-- Python int() applied to a float: truncation toward zero. -/
def pyInt (x : ℚ) : ℤ := if 0 ≤ x then Int.floor x else Int.ceil x

/-- Python divmod(a, b) on floats: floor quotient together with the remainder
a - floor(a / b) * b. -/
def pyDivmod (a b : ℚ) : ℤ × ℚ := (Int.floor (a / b), a - Int.floor (a / b) * b)

/-- Python math.modf(x): the pair of fractional part and integer part, the
integer part truncated toward zero. -/
def pyModf (x : ℚ) : ℚ × ℚ := (x - (pyInt x : ℚ), (pyInt x : ℚ))

/-- Python round() to an integer: round half to even. -/
def pyRoundHalfEven (y : ℚ) : ℤ :=
  if Int.fract y = 1/2 then (if Even (Int.floor y) then Int.floor y else Int.floor y + 1)
  else round y

/-- Python round(x, 1): round to the nearest multiple of one tenth,
half to even. -/
def pyRound1 (x : ℚ) : ℚ := (pyRoundHalfEven (x * 10) : ℚ) / 10

/-- Python str() of an integer: decimal digits, with a leading minus sign for
negative values. -/
def pyStr (n : ℤ) : List Char :=
  if n < 0 then ['-'] ++ Nat.toDigits 10 n.natAbs else Nat.toDigits 10 n.toNat

/-- Decimal digit-string parsing: some value for a nonempty all-digit string,
none otherwise (Python int() raises ValueError there). -/
def digitsToNat (cs : List Char) : Option ℕ :=
  if cs.isEmpty then none
  else cs.foldl
    (fun acc c => acc.bind fun m => if c.isDigit then some (10 * m + (c.toNat - 48)) else none)
    (some 0)

/-- Python int() applied to a string: optional leading minus sign followed by
decimal digits. -/
def pyIntOfStr (cs : List Char) : Option ℤ :=
  match cs with
  | [] => none
  | c :: rest =>
    if c = '-' then (digitsToNat rest).map (fun m => -(m : ℤ))
    else (digitsToNat cs).map (fun m => (m : ℤ))

/-! Mesh encoding, from MeshCode._mesh_code (apps/mesh.py lines 42-78).
Each let binding of the Python function becomes a named definition so that
the claims can speak about the intermediate quantities. -/

/-- p, a = divmod(lat * 60, 40)  (apps/mesh.py line 47). -/
def latP (lat : ℚ) : ℤ × ℚ := pyDivmod (lat * 60) 40

/-- q, b = divmod(a, 5)  (apps/mesh.py line 48). -/
def latQ (lat : ℚ) : ℤ × ℚ := pyDivmod (latP lat).2 5

/-- r, c = divmod(b * 60, 30)  (apps/mesh.py line 49). -/
def latR (lat : ℚ) : ℤ × ℚ := pyDivmod ((latQ lat).2 * 60) 30

/-- s, d = divmod(c, 15)  (apps/mesh.py line 50). -/
def latS (lat : ℚ) : ℤ × ℚ := pyDivmod (latR lat).2 15

/-- t, e = divmod(b, 7.5)  (apps/mesh.py line 51); note the argument is the
secondary-level remainder b, not the standard-level remainder c. -/
def latT (lat : ℚ) : ℤ × ℚ := pyDivmod (latQ lat).2 (15/2)

/-- f, i = math.modf(lon)  (apps/mesh.py line 56). -/
def lonFI (lon : ℚ) : ℚ × ℚ := pyModf lon

/-- u = int(i - 100)  (apps/mesh.py line 57). -/
def lonU (lon : ℚ) : ℤ := pyInt ((lonFI lon).2 - 100)

/-- v, g = divmod(f * 60, 7.5)  (apps/mesh.py line 58). -/
def lonV (lon : ℚ) : ℤ × ℚ := pyDivmod ((lonFI lon).1 * 60) (15/2)

/-- w, h = divmod(g * 60, 45)  (apps/mesh.py line 59). -/
def lonW (lon : ℚ) : ℤ × ℚ := pyDivmod ((lonV lon).2 * 60) 45

/-- x, j = divmod(h, 22.5)  (apps/mesh.py line 60). -/
def lonX (lon : ℚ) : ℤ × ℚ := pyDivmod (lonW lon).2 (45/2)

/-- y, j = divmod(j, 11.25)  (apps/mesh.py line 61). -/
def lonY (lon : ℚ) : ℤ × ℚ := pyDivmod (lonX lon).2 (45/4)

/-- m = int((s * 2) + (x + 1))  (apps/mesh.py line 65). -/
def mDigit (lon lat : ℚ) : ℤ := (latS lat).1 * 2 + ((lonX lon).1 + 1)

/-- n = int((t * 2) + (y + 1))  (apps/mesh.py line 66). -/
def nDigit (lon lat : ℚ) : ℤ := (latT lat).1 * 2 + ((lonY lon).1 + 1)

/-- The five mesh codes computed by MeshCode._mesh_code, as character
lists. -/
structure MeshCodes where
  first_mesh_code : List Char
  secandary_mesh_code : List Char
  standard_mesh_code : List Char
  half_mesh_code : List Char
  quarter_mesh_code : List Char

/-- MeshCode._mesh_code (apps/mesh.py lines 42-78): the five hierarchical
mesh codes of a decimal-degree coordinate, built by concatenating the string
forms of the index values. -/
def meshCode (lon lat : ℚ) : MeshCodes :=
  let first := pyStr (latP lat).1 ++ pyStr (lonU lon)
  let secandary := first ++ pyStr (latQ lat).1 ++ pyStr (lonV lon).1
  let standard := secandary ++ pyStr (latR lat).1 ++ pyStr (lonW lon).1
  let half := standard ++ pyStr (mDigit lon lat)
  let quarter := half ++ pyStr (nDigit lon lat)
  MeshCodes.mk first secandary standard half quarter

/-! Mesh decoding, from ReverseMeshCode (apps/mesh.py lines 91-136).
Python string slices mesh_code[a:b] become take and drop on the character
list; int() of a slice becomes pyIntOfStr. -/

/-- ReverseMeshCode._mesh_to_first_lonlat (apps/mesh.py lines 108-116). -/
def meshToFirstLonlat (cs : List Char) : Option (ℚ × ℚ) :=
  (pyIntOfStr (cs.take 2)).bind fun firstTwo =>
  (pyIntOfStr ((cs.drop 2).take 2)).map fun lastTwo =>
    ((lastTwo : ℚ) + 100, (firstTwo : ℚ) * 2 / 3)

/-- ReverseMeshCode._mesh_to_seccandary_lonlat (apps/mesh.py lines 118-126). -/
def meshToSecandaryLonlat (cs : List Char) : Option (ℚ × ℚ) :=
  (pyIntOfStr ((cs.drop 4).take 1)).bind fun fifth =>
  (pyIntOfStr ((cs.drop 5).take 1)).map fun sixth =>
    ((sixth : ℚ) / 8, (fifth : ℚ) * 2 / 3 / 8)

/-- ReverseMeshCode._mesh_to_standard_lonlat (apps/mesh.py lines 128-136). -/
def meshToStandardLonlat (cs : List Char) : Option (ℚ × ℚ) :=
  (pyIntOfStr ((cs.drop 6).take 1)).bind fun seventh =>
  (pyIntOfStr ((cs.drop 7).take 1)).map fun eighth =>
    ((eighth : ℚ) / 8 / 10, (seventh : ℚ) * 2 / 3 / 8 / 10)

/-- ReverseMeshCode._calc_lonlat (apps/mesh.py lines 100-106): the decoded
longitude and latitude are the componentwise sums of the three partial
decodings. -/
def calcLonlat (cs : List Char) : Option (ℚ × ℚ) :=
  (meshToFirstLonlat cs).bind fun p1 =>
  (meshToSecandaryLonlat cs).bind fun p2 =>
  (meshToStandardLonlat cs).map fun p3 =>
    (p1.1 + p2.1 + p3.1, p1.2 + p2.2 + p3.2)

/-! Semi-dynamic correction, from apps/semidynamic.py and apps/config.py. -/

/-- Delta (apps/config.py lines 477-479): a tectonic offset in arcseconds
(x longitude, y latitude) and meters (z height). -/
structure Delta where
  delta_x : ℚ
  delta_y : ℚ
  delta_z : ℚ
deriving DecidableEq

/-- MeshDesign (apps/config.py lines 470-474): one corner of the
interpolation cell: a corner tag, the corner position in arcseconds and its
standard mesh code. -/
structure MeshDesign where
  name : String
  lon : ℚ
  lat : ℚ
  standard_mesh_code : List Char

/-- The four corners returned by
SemiDynamicCorrection.semidynamic_mesh_design. -/
structure MeshDesigns where
  lower_left : MeshDesign
  lower_right : MeshDesign
  upper_left : MeshDesign
  upper_right : MeshDesign

/-- SemiDynamicCorrection._adjust_mesh_code (apps/semidynamic.py lines
190-229): offset the lower-left corner by the given parameters and encode
the result. -/
def adjustMeshCode (lowerLeftSecLon lowerLeftSecLat : ℚ) (lonParam latParam : ℚ)
    (name : String) : MeshDesign :=
  let secLon := lowerLeftSecLon + lonParam
  let secLat := lowerLeftSecLat + latParam
  MeshDesign.mk name secLon secLat
    (meshCode (secLon / 3600) (secLat / 3600)).standard_mesh_code

/-- SemiDynamicCorrection.semidynamic_mesh_design (apps/semidynamic.py lines
133-188): round the position to one decimal of arcsecond, truncate to the
grid of 225 by 150 arcseconds for the lower-left corner, and build the four
corner designs.  The try branch around the MeshCode constructions cannot fail
in the rational model (the Python computations involved raise no exception
for numeric input), so the False-returning except branch is unreachable and
the result is returned directly. -/
def semidynamicMeshDesign (lon lat : ℚ) : MeshDesigns :=
  let lonParam : ℚ := 225
  let latParam : ℚ := 150
  let m := pyInt (pyRound1 (lon * 3600) / lonParam)
  let n := pyInt (pyRound1 (lat * 3600) / latParam)
  let lowerLeftSecLon := (m : ℚ) * lonParam
  let lowerLeftSecLat := (n : ℚ) * latParam
  MeshDesigns.mk
    (MeshDesign.mk "lower_left" lowerLeftSecLon lowerLeftSecLat
      (meshCode (lowerLeftSecLon / 3600) (lowerLeftSecLat / 3600)).standard_mesh_code)
    (adjustMeshCode lowerLeftSecLon lowerLeftSecLat lonParam 0 "lower_right")
    (adjustMeshCode lowerLeftSecLon lowerLeftSecLat 0 latParam "upper_left")
    (adjustMeshCode lowerLeftSecLon lowerLeftSecLat lonParam latParam "upper_right")

/-- SemiDynamicCorrection._get_delta (apps/semidynamic.py lines 261-280):
look the integer form of a standard mesh code up in the parameter table; a
missing row raises KeyError naming the mesh code. -/
def getDelta (table : List (ℤ × Delta)) (code : List Char) : Except String Delta :=
  match pyIntOfStr code with
  | none => Except.error "ValueError"
  | some k =>
    match table.lookup k with
    | none => Except.error ("Mesh code " ++ String.mk code ++ " not found in parameters.")
    | some d => Except.ok d

/-- The weight of the lower-left Delta in _correction_2d
(apps/semidynamic.py line 326). -/
def wLL (x y : ℚ) : ℚ := (1 - y) * (1 - x)

/-- The weight of the lower-right Delta in _correction_2d
(apps/semidynamic.py line 327). -/
def wLR (x y : ℚ) : ℚ := y * (1 - x)

/-- The weight of the upper-right Delta in _correction_2d
(apps/semidynamic.py line 328). -/
def wUR (x y : ℚ) : ℚ := y * x

/-- The weight of the upper-left Delta in _correction_2d
(apps/semidynamic.py line 329). -/
def wUL (x y : ℚ) : ℚ := (1 - y) * x

/-- The interpolation expression of _correction_2d (apps/semidynamic.py
lines 325-336), applied to the four corner values in the order lower-left,
lower-right, upper-right, upper-left as in the source. -/
def interp2d (x y dLL dLR dUR dUL : ℚ) : ℚ :=
  wLL x y * dLL + wLR x y * dLR + wUR x y * dUR + wUL x y * dUL

/-- SemiDynamicCorrection._correction_2d (apps/semidynamic.py lines
282-346): build the cell, fetch the four corner Deltas (lower-left,
lower-right, upper-left, upper-right in the order of _get_delta_sets, the
first missing one failing the whole call), normalize the position in the
cell, interpolate, negate when returning to the original epoch, and apply
the offset in degrees. -/
def correction2dSingle (table : List (ℤ × Delta)) (lon lat : ℚ)
    (returnToOriginal : Bool) : Except String (ℚ × ℚ) :=
  let designs := semidynamicMeshDesign lon lat
  let lonSec := lon * 3600
  let latSec := lat * 3600
  (getDelta table designs.lower_left.standard_mesh_code).bind fun llD =>
  (getDelta table designs.lower_right.standard_mesh_code).bind fun lrD =>
  (getDelta table designs.upper_left.standard_mesh_code).bind fun ulD =>
  (getDelta table designs.upper_right.standard_mesh_code).map fun urD =>
    let xNorm := (lonSec - designs.lower_left.lon) /
      (designs.lower_right.lon - designs.lower_left.lon)
    let yNorm := (latSec - designs.lower_left.lat) /
      (designs.upper_left.lat - designs.lower_left.lat)
    let deltaLonP := interp2d xNorm yNorm llD.delta_x lrD.delta_x urD.delta_x ulD.delta_x
    let deltaLatP := interp2d xNorm yNorm llD.delta_y lrD.delta_y urD.delta_y ulD.delta_y
    let deltaLonP := if returnToOriginal then deltaLonP * (-1) else deltaLonP
    let deltaLatP := if returnToOriginal then deltaLatP * (-1) else deltaLatP
    (lon + deltaLonP / 3600, lat + deltaLatP / 3600)

/-- The result-collecting loop of SemiDynamicCorrection.correction_2d
(apps/semidynamic.py lines 369-372): run the single-point correction on
each pair in order; an exception raised for one point propagates out of the
Python loop and aborts the whole batch, which the Except monad models
exactly. -/
def correctionList (table : List (ℤ × Delta)) (returnToOriginal : Bool) :
    List (ℚ × ℚ) → Except String (List (ℚ × ℚ))
  | [] => Except.ok []
  | p :: rest =>
    (correction2dSingle table p.1 p.2 returnToOriginal).bind fun r =>
    (correctionList table returnToOriginal rest).map fun rs => r :: rs

/-- SemiDynamicCorrection.correction_2d on list input (apps/semidynamic.py
lines 348-378): zip the longitude and latitude lists, run the loop, and
collect the corrected longitudes and latitudes. -/
def correction2dBatch (table : List (ℤ × Delta)) (lons lats : List ℚ)
    (returnToOriginal : Bool) : Except String (List ℚ × List ℚ) :=
  (correctionList table returnToOriginal (lons.zip lats)).map
    fun results => (results.map Prod.fst, results.map Prod.snd)

/-- Fiscal-year resolution of SemiDynamicCorrection.__init__
(apps/semidynamic.py lines 60-66): month at least 4 selects the calendar
year itself, an earlier month selects the previous year. -/
def fiscalYear (year month : ℤ) : ℤ := if 4 ≤ month then year else year - 1

/-- SemiDynamicCorrection.check_correction_year (apps/config.py lines
405-429): month at most 3 selects the previous year, otherwise the year
itself. -/
def checkCorrectionYear (year month : ℤ) : ℤ := if month ≤ 3 then year - 1 else year

/-- Parameter table used for the batch-abort result: the four corner cells
of the 225 by 150 arcsecond cell with lower-left corner (141, 40) in
degrees, and no others. -/
def tblC2 : List (ℤ × Delta) :=
  [(60410000, Delta.mk (9/25) (-(9/50)) 0),
   (60410005, Delta.mk (9/25) (-(9/50)) 0),
   (60410050, Delta.mk (9/25) (-(9/50)) 0),
   (60410055, Delta.mk (9/25) (-(9/50)) 0)]

/-- Longitude whose position in arcseconds, 360224.96, is just below the
grid multiple 360225 = 1601 * 225 but rounds up to it at one decimal. -/
def lonC6 : ℚ := (360224.96 : ℚ) / 3600

/-! Evaluation helpers: closed-form characterizations of the Python
primitives, used to compute with the embedding. -/

/-- Floor evaluation from two-sided rational bounds. -/
theorem floor_eval {x : ℚ} {n : ℤ} (h1 : (n : ℚ) ≤ x) (h2 : x < n + 1) : ⌊x⌋ = n :=
  Int.floor_eq_iff.mpr ⟨h1, h2⟩

/-- pyInt evaluation on nonnegative input. -/
theorem pyInt_eval {x : ℚ} {n : ℤ} (h0 : 0 ≤ x) (h1 : (n : ℚ) ≤ x) (h2 : x < n + 1) :
    pyInt x = n := by
  unfold pyInt
  rw [if_pos h0]
  exact floor_eval h1 h2

/-- pyDivmod evaluation from multiplied-out bounds on the quotient. -/
theorem pyDivmod_eval (a b : ℚ) (n : ℤ) (r : ℚ) (hb : 0 < b)
    (h1 : (n : ℚ) * b ≤ a) (h2 : a < (n + 1) * b) (hr : a - n * b = r) :
    pyDivmod a b = (n, r) := by
  unfold pyDivmod
  have hfl : ⌊a / b⌋ = n := by
    refine floor_eval ?_ ?_
    · rw [le_div_iff₀ hb]; exact h1
    · rw [div_lt_iff₀ hb]; exact h2
  rw [hfl, hr]

/-- The remainder of pyDivmod with a positive divisor is nonnegative,
smaller than the divisor, and complements the quotient. -/
theorem pyDivmod_bounds (a b : ℚ) (hb : 0 < b) :
    0 ≤ (pyDivmod a b).2 ∧ (pyDivmod a b).2 < b ∧
      a = ((pyDivmod a b).1 : ℚ) * b + (pyDivmod a b).2 := by
  unfold pyDivmod
  have hfr1 : (0:ℚ) ≤ Int.fract (a / b) := Int.fract_nonneg _
  have hfr2 : Int.fract (a / b) < 1 := Int.fract_lt_one _
  have hdef : Int.fract (a / b) = a / b - ⌊a / b⌋ := rfl
  have key : a - (⌊a / b⌋ : ℚ) * b = Int.fract (a / b) * b := by
    rw [hdef, sub_mul, div_mul_cancel₀ _ (ne_of_gt hb)]
  refine ⟨?_, ?_, by ring⟩
  · simp only
    rw [key]
    exact mul_nonneg hfr1 hb.le
  · simp only
    rw [key]
    nlinarith

/-- pyRound1 evaluation away from ties. -/
theorem pyRound1_eval (x : ℚ) (m n : ℤ) (hm1 : (m : ℚ) ≤ x * 10) (hm2 : x * 10 < m + 1)
    (hne : x * 10 - m ≠ 1/2) (hn1 : (n : ℚ) ≤ x * 10 + 1/2) (hn2 : x * 10 + 1/2 < n + 1) :
    pyRound1 x = (n : ℚ) / 10 := by
  unfold pyRound1 pyRoundHalfEven
  have hfl : ⌊x * 10⌋ = m := floor_eval hm1 hm2
  have hfr : Int.fract (x * 10) ≠ 1/2 := by
    have hdef : Int.fract (x * 10) = x * 10 - ⌊x * 10⌋ := rfl
    rw [hdef, hfl]
    exact hne
  rw [if_neg hfr, round_eq, floor_eval hn1 hn2]

/-- pyRound1 preserves nonnegativity. -/
theorem pyRound1_nonneg {x : ℚ} (hx : 0 ≤ x) : 0 ≤ pyRound1 x := by
  unfold pyRound1 pyRoundHalfEven
  have hy : (0:ℚ) ≤ x * 10 := by linarith
  have h0 : (0:ℤ) ≤ ⌊x * 10⌋ := Int.le_floor.mpr (by exact_mod_cast hy)
  have h1 : (0:ℤ) ≤ round (x * 10) := by
    rw [round_eq]
    exact Int.le_floor.mpr (by push_cast; linarith)
  split_ifs with hc hc2 <;> apply div_nonneg _ (by norm_num)
  · exact_mod_cast h0
  · exact_mod_cast (by omega : (0:ℤ) ≤ ⌊x * 10⌋ + 1)
  · exact_mod_cast h1

/-- The standard mesh code is the concatenation of the string forms of the
six indices, two latitude-longitude pairs at each of the three levels. -/
theorem meshCode_standard_eq (lon lat : ℚ) :
    (meshCode lon lat).standard_mesh_code =
      pyStr (latP lat).1 ++ pyStr (lonU lon) ++ pyStr (latQ lat).1 ++ pyStr (lonV lon).1
        ++ pyStr (latR lat).1 ++ pyStr (lonW lon).1 := by
  simp [meshCode, List.append_assoc]

/-- Claim C10: the four bilinear weights used by the correction sum to one
for every normalized position, and consequently when all four corners carry
the same Delta value the interpolated offset equals that value exactly. -/
theorem C10_weights_sum_to_one (x y d : ℚ) :
    wLL x y + wLR x y + wUR x y + wUL x y = 1 ∧ interp2d x y d d d d = d := by
  unfold interp2d wLL wLR wUR wUL
  constructor <;> ring

/-- Counterexample to claim C1 as stated: with corner Deltas 10 (lower
left), 20 (lower right), 30 (upper right), 40 (upper left), the
interpolation at the lower-right corner position x_norm = 1, y_norm = 0
returns 40, the upper-left Delta, and not 20, the Delta of that corner. -/
theorem C1_counterexample :
    interp2d 1 0 10 20 30 40 = 40 ∧ interp2d 1 0 10 20 30 40 ≠ 20 := by
  unfold interp2d wLL wLR wUR wUL
  norm_num

/-- Claim C1 (amended): at every corner position, exactly one weight of the
stated formula is one and the others vanish, so the interpolation returns a
single corner Delta with zero residual; the lower-left Delta at (0,0) and
the upper-right Delta at (1,1) belong to their own corners, but the formula
returns the upper-left Delta at (1,0) and the lower-right Delta at (0,1). -/
theorem C1_corner_single_delta (x y dLL dLR dUR dUL : ℚ)
    (hx : x = 0 ∨ x = 1) (hy : y = 0 ∨ y = 1) :
    interp2d x y dLL dLR dUR dUL =
      if x = 0 then (if y = 0 then dLL else dLR)
      else (if y = 0 then dUL else dUR) := by
  rcases hx with rfl | rfl <;> rcases hy with rfl | rfl <;>
    norm_num [interp2d, wLL, wLR, wUR, wUL]

/-- Witness for the amended claim C1 at the corner (1, 0). -/
theorem C1_corner_single_delta_witness :
    interp2d 1 0 10 20 30 40 =
      if (1:ℚ) = 0 then (if (0:ℚ) = 0 then 10 else 20)
      else (if (0:ℚ) = 0 then 40 else 30) :=
  C1_corner_single_delta 1 0 10 20 30 40 (Or.inr rfl) (Or.inl rfl)

/-- Claim C3: the corrector resolves the fiscal year as the calendar year
itself for months from April on and the previous calendar year before
April; the two implementations in the source agree, and the two scenario
dates resolve to 2023 and 2022. -/
theorem C3_fiscal_year (y m : ℤ) :
    (4 ≤ m → fiscalYear y m = y) ∧ (m < 4 → fiscalYear y m = y - 1) ∧
      checkCorrectionYear y m = fiscalYear y m ∧
      fiscalYear 2023 11 = 2023 ∧ fiscalYear 2023 3 = 2022 := by
  refine ⟨fun h => ?_, fun h => ?_, ?_, ?_, ?_⟩
  · rw [fiscalYear, if_pos h]
  · rw [fiscalYear, if_neg (by omega)]
  · unfold fiscalYear checkCorrectionYear
    split_ifs <;> omega
  · rw [fiscalYear, if_pos (by norm_num)]
  · norm_num [fiscalYear]

/-- Witness for claim C3 at the two scenario dates. -/
theorem C3_fiscal_year_witness :
    fiscalYear 2023 11 = 2023 ∧ fiscalYear 2023 3 = 2022 :=
  ⟨(C3_fiscal_year 2023 11).1 (by norm_num), (C3_fiscal_year 2023 3).2.1 (by norm_num)⟩

/-- Claim C9: the latitude quarter-mesh index is always zero, because it
divides the secondary-level remainder, smaller than 5, by 7.5; hence the
quarter digit n is determined by the longitude alone and always equals
1 or 2. -/
theorem C9_quarter_digit (lon lat lat2 : ℚ) :
    (latT lat).1 = 0 ∧ nDigit lon lat = nDigit lon lat2 ∧
      (nDigit lon lat = 1 ∨ nDigit lon lat = 2) := by
  have hbnd : ∀ la : ℚ, (latT la).1 = 0 := by
    intro la
    obtain ⟨hb0, hb5, _⟩ := pyDivmod_bounds (latP la).2 5 (by norm_num)
    have : latQ la = pyDivmod (latP la).2 5 := rfl
    unfold latT pyDivmod
    simp only
    refine floor_eval ?_ ?_
    · push_cast
      rw [this]
      positivity
    · push_cast
      rw [div_lt_iff₀ (by norm_num : (0:ℚ) < 15/2), this]
      linarith
  obtain ⟨hj0, hj2, _⟩ := pyDivmod_bounds (lonW lon).2 (45/2) (by norm_num)
  have hx : lonX lon = pyDivmod (lonW lon).2 (45/2) := rfl
  have hy0 : (0:ℤ) ≤ (lonY lon).1 := by
    unfold lonY pyDivmod
    simp only
    refine Int.le_floor.mpr ?_
    push_cast
    rw [hx]
    positivity
  have hy1 : (lonY lon).1 < 2 := by
    unfold lonY pyDivmod
    simp only
    refine Int.floor_lt.mpr ?_
    push_cast
    rw [div_lt_iff₀ (by norm_num : (0:ℚ) < 45/4), hx]
    linarith
  refine ⟨hbnd lat, ?_, ?_⟩
  · unfold nDigit
    rw [hbnd lat, hbnd lat2]
  · unfold nDigit
    rw [hbnd lat]
    omega

/-- pyInt of a value that is exactly an integer. -/
theorem pyInt_eval_cast (x : ℚ) (n : ℤ) (h : x = (n : ℚ)) : pyInt x = n := by
  rw [h]
  unfold pyInt
  split_ifs <;> simp

/-- Standard mesh code evaluation: supplying the value of every divmod in
the two index chains reduces the code to a concatenation of digit
strings. -/
theorem meshCode_standard_eval (lon lat : ℚ) (P q r : ℤ) (a b c : ℚ)
    (i u v w : ℤ) (g h : ℚ)
    (hP : pyDivmod (lat * 60) 40 = (P, a))
    (hQ : pyDivmod a 5 = (q, b))
    (hR : pyDivmod (b * 60) 30 = (r, c))
    (hi : pyInt lon = i)
    (hu : pyInt ((i : ℚ) - 100) = u)
    (hv : pyDivmod ((lon - (i : ℚ)) * 60) (15/2) = (v, g))
    (hw : pyDivmod (g * 60) 45 = (w, h)) :
    (meshCode lon lat).standard_mesh_code =
      pyStr P ++ pyStr u ++ pyStr q ++ pyStr v ++ pyStr r ++ pyStr w := by
  rw [meshCode_standard_eq]
  simp only [latP, latQ, latR, lonU, lonV, lonW, lonFI, pyModf, hi, hP, hQ, hR, hu, hv, hw]

/-- Claim C4: the two scenario coordinates encode to the standard mesh
codes 60400404 and 61401589. -/
theorem C4_encode_scenarios :
    (meshCode (140.5555:ℚ) (40.001:ℚ)).standard_mesh_code = "60400404".toList ∧
    (meshCode (140.74128:ℚ) (40.82416:ℚ)).standard_mesh_code = "61401589".toList := by
  constructor
  · rw [meshCode_standard_eval (140.5555:ℚ) (40.001:ℚ) 60 0 0 (6/100) (6/100) (36/10)
      140 40 4 4 (333/100) (198/10)
      (pyDivmod_eval _ _ _ _ (by norm_num) (by norm_num) (by norm_num) (by norm_num))
      (pyDivmod_eval _ _ _ _ (by norm_num) (by norm_num) (by norm_num) (by norm_num))
      (pyDivmod_eval _ _ _ _ (by norm_num) (by norm_num) (by norm_num) (by norm_num))
      (pyInt_eval (by norm_num) (by norm_num) (by norm_num))
      (pyInt_eval_cast _ _ (by norm_num))
      (pyDivmod_eval _ _ _ _ (by norm_num) (by norm_num) (by norm_num) (by norm_num))
      (pyDivmod_eval _ _ _ _ (by norm_num) (by norm_num) (by norm_num) (by norm_num))]
    decide
  · rw [meshCode_standard_eval (140.74128:ℚ) (40.82416:ℚ) 61 1 8 (94496/10000)
      (44496/10000) (26976/1000) 140 40 5 9 (69768/10000) (13608/1000)
      (pyDivmod_eval _ _ _ _ (by norm_num) (by norm_num) (by norm_num) (by norm_num))
      (pyDivmod_eval _ _ _ _ (by norm_num) (by norm_num) (by norm_num) (by norm_num))
      (pyDivmod_eval _ _ _ _ (by norm_num) (by norm_num) (by norm_num) (by norm_num))
      (pyInt_eval (by norm_num) (by norm_num) (by norm_num))
      (pyInt_eval_cast _ _ (by norm_num))
      (pyDivmod_eval _ _ _ _ (by norm_num) (by norm_num) (by norm_num) (by norm_num))
      (pyDivmod_eval _ _ _ _ (by norm_num) (by norm_num) (by norm_num) (by norm_num))]
    decide

/-- Claim C7, behavior of the source at an out-of-domain input: encoding
longitude 99.5 (below the domain lower bound 100) and latitude 35 raises no
error and silently returns the malformed code 52-14400, whose longitude
index underflowed to -1. -/
theorem C7_out_of_domain_silent :
    (meshCode (99.5:ℚ) (35:ℚ)).standard_mesh_code = "52-14400".toList := by
  rw [meshCode_standard_eval (99.5:ℚ) (35:ℚ) 52 4 0 20 0 0 99 (-1) 4 0 0 0
    (pyDivmod_eval _ _ _ _ (by norm_num) (by norm_num) (by norm_num) (by norm_num))
    (pyDivmod_eval _ _ _ _ (by norm_num) (by norm_num) (by norm_num) (by norm_num))
    (pyDivmod_eval _ _ _ _ (by norm_num) (by norm_num) (by norm_num) (by norm_num))
    (pyInt_eval (by norm_num) (by norm_num) (by norm_num))
    (pyInt_eval_cast _ _ (by norm_num))
    (pyDivmod_eval _ _ _ _ (by norm_num) (by norm_num) (by norm_num) (by norm_num))
    (pyDivmod_eval _ _ _ _ (by norm_num) (by norm_num) (by norm_num) (by norm_num))]
  decide

/-- Counterexample to claim C6 as stated: the point with longitude position
360224.96 arcseconds (and latitude 40 degrees) receives the lower-left
corner 360225 arcseconds, which exceeds the position of the point; the code
rounds the position to one decimal of arcsecond before truncating to the
grid, and 360224.96 rounds up across the grid line. -/
theorem C6_counterexample :
    (semidynamicMeshDesign lonC6 40).lower_left.lon = 360225 ∧ lonC6 * 3600 < 360225 := by
  have hval : lonC6 * 3600 = (360224.96 : ℚ) := by unfold lonC6; norm_num
  constructor
  · have hr : pyRound1 (lonC6 * 3600) = 360225 := by
      rw [hval, pyRound1_eval (360224.96:ℚ) 3602249 3602250 (by norm_num) (by norm_num)
        (by norm_num) (by norm_num) (by norm_num)]
      norm_num
    show ((pyInt (pyRound1 (lonC6 * 3600) / 225) : ℚ) * 225) = 360225
    rw [hr, pyInt_eval_cast _ 1601 (by norm_num)]
    norm_num
  · rw [hval]
    norm_num

/-- Claim C6 (amended): for every nonnegative input point, the lower-left
corner of the interpolation cell is the largest multiple of
(225 arcsec, 150 arcsec) that does not exceed the position of the point
rounded to one decimal of arcsecond (the code rounds before truncating to
the grid), and the other three corners are that corner offset by exactly
one step in longitude and or latitude. -/
theorem C6_lower_left_grid (lon lat : ℚ) (hlon : 0 ≤ lon) (hlat : 0 ≤ lat) :
    (∃ m : ℤ, (semidynamicMeshDesign lon lat).lower_left.lon = (m : ℚ) * 225) ∧
    (∃ n : ℤ, (semidynamicMeshDesign lon lat).lower_left.lat = (n : ℚ) * 150) ∧
    (semidynamicMeshDesign lon lat).lower_left.lon ≤ pyRound1 (lon * 3600) ∧
    pyRound1 (lon * 3600) < (semidynamicMeshDesign lon lat).lower_left.lon + 225 ∧
    (semidynamicMeshDesign lon lat).lower_left.lat ≤ pyRound1 (lat * 3600) ∧
    pyRound1 (lat * 3600) < (semidynamicMeshDesign lon lat).lower_left.lat + 150 ∧
    (semidynamicMeshDesign lon lat).lower_right.lon =
      (semidynamicMeshDesign lon lat).lower_left.lon + 225 ∧
    (semidynamicMeshDesign lon lat).lower_right.lat =
      (semidynamicMeshDesign lon lat).lower_left.lat ∧
    (semidynamicMeshDesign lon lat).upper_left.lon =
      (semidynamicMeshDesign lon lat).lower_left.lon ∧
    (semidynamicMeshDesign lon lat).upper_left.lat =
      (semidynamicMeshDesign lon lat).lower_left.lat + 150 ∧
    (semidynamicMeshDesign lon lat).upper_right.lon =
      (semidynamicMeshDesign lon lat).lower_left.lon + 225 ∧
    (semidynamicMeshDesign lon lat).upper_right.lat =
      (semidynamicMeshDesign lon lat).lower_left.lat + 150 := by
  have hrlon : 0 ≤ pyRound1 (lon * 3600) := pyRound1_nonneg (by positivity)
  have hrlat : 0 ≤ pyRound1 (lat * 3600) := pyRound1_nonneg (by positivity)
  have hm : pyInt (pyRound1 (lon * 3600) / 225) = ⌊pyRound1 (lon * 3600) / 225⌋ := by
    unfold pyInt
    rw [if_pos (by positivity)]
  have hn : pyInt (pyRound1 (lat * 3600) / 150) = ⌊pyRound1 (lat * 3600) / 150⌋ := by
    unfold pyInt
    rw [if_pos (by positivity)]
  have hml : (⌊pyRound1 (lon * 3600) / 225⌋ : ℚ) * 225 ≤ pyRound1 (lon * 3600) := by
    have := Int.floor_le (pyRound1 (lon * 3600) / 225)
    have h225 : (0:ℚ) < 225 := by norm_num
    calc (⌊pyRound1 (lon * 3600) / 225⌋ : ℚ) * 225
        ≤ pyRound1 (lon * 3600) / 225 * 225 := by nlinarith
      _ = pyRound1 (lon * 3600) := by field_simp
  have hmu : pyRound1 (lon * 3600) < ((⌊pyRound1 (lon * 3600) / 225⌋ : ℚ)) * 225 + 225 := by
    have := Int.lt_floor_add_one (pyRound1 (lon * 3600) / 225)
    nlinarith
  have hnl : (⌊pyRound1 (lat * 3600) / 150⌋ : ℚ) * 150 ≤ pyRound1 (lat * 3600) := by
    have := Int.floor_le (pyRound1 (lat * 3600) / 150)
    have h150 : (0:ℚ) < 150 := by norm_num
    calc (⌊pyRound1 (lat * 3600) / 150⌋ : ℚ) * 150
        ≤ pyRound1 (lat * 3600) / 150 * 150 := by nlinarith
      _ = pyRound1 (lat * 3600) := by field_simp
  have hnu : pyRound1 (lat * 3600) < ((⌊pyRound1 (lat * 3600) / 150⌋ : ℚ)) * 150 + 150 := by
    have := Int.lt_floor_add_one (pyRound1 (lat * 3600) / 150)
    nlinarith
  refine ⟨⟨pyInt (pyRound1 (lon * 3600) / 225), rfl⟩,
    ⟨pyInt (pyRound1 (lat * 3600) / 150), rfl⟩, ?_, ?_, ?_, ?_,
    by simp [semidynamicMeshDesign, adjustMeshCode], by simp [semidynamicMeshDesign, adjustMeshCode],
    by simp [semidynamicMeshDesign, adjustMeshCode], by simp [semidynamicMeshDesign, adjustMeshCode],
    by simp [semidynamicMeshDesign, adjustMeshCode], by simp [semidynamicMeshDesign, adjustMeshCode]⟩
  · show (pyInt (pyRound1 (lon * 3600) / 225) : ℚ) * 225 ≤ pyRound1 (lon * 3600)
    rw [hm]
    exact hml
  · show pyRound1 (lon * 3600) < (pyInt (pyRound1 (lon * 3600) / 225) : ℚ) * 225 + 225
    rw [hm]
    exact hmu
  · show (pyInt (pyRound1 (lat * 3600) / 150) : ℚ) * 150 ≤ pyRound1 (lat * 3600)
    rw [hn]
    exact hnl
  · show pyRound1 (lat * 3600) < (pyInt (pyRound1 (lat * 3600) / 150) : ℚ) * 150 + 150
    rw [hn]
    exact hnu

/-- Witness for the amended claim C6 at the point (141, 40). -/
theorem C6_lower_left_grid_witness :
    (∃ m : ℤ, (semidynamicMeshDesign 141 40).lower_left.lon = (m : ℚ) * 225) ∧
    (∃ n : ℤ, (semidynamicMeshDesign 141 40).lower_left.lat = (n : ℚ) * 150) ∧
    (semidynamicMeshDesign 141 40).lower_left.lon ≤ pyRound1 (141 * 3600) ∧
    pyRound1 (141 * 3600) < (semidynamicMeshDesign 141 40).lower_left.lon + 225 ∧
    (semidynamicMeshDesign 141 40).lower_left.lat ≤ pyRound1 (40 * 3600) ∧
    pyRound1 (40 * 3600) < (semidynamicMeshDesign 141 40).lower_left.lat + 150 ∧
    (semidynamicMeshDesign 141 40).lower_right.lon =
      (semidynamicMeshDesign 141 40).lower_left.lon + 225 ∧
    (semidynamicMeshDesign 141 40).lower_right.lat =
      (semidynamicMeshDesign 141 40).lower_left.lat ∧
    (semidynamicMeshDesign 141 40).upper_left.lon =
      (semidynamicMeshDesign 141 40).lower_left.lon ∧
    (semidynamicMeshDesign 141 40).upper_left.lat =
      (semidynamicMeshDesign 141 40).lower_left.lat + 150 ∧
    (semidynamicMeshDesign 141 40).upper_right.lon =
      (semidynamicMeshDesign 141 40).lower_left.lon + 225 ∧
    (semidynamicMeshDesign 141 40).upper_right.lat =
      (semidynamicMeshDesign 141 40).lower_left.lat + 150 :=
  C6_lower_left_grid 141 40 (by norm_num) (by norm_num)

/-- For every two-digit natural number, pyStr gives two characters that
parse back to the number. -/
theorem pyStr_two_aux : ∀ k : Fin 100, 10 ≤ k.val →
    (pyStr (k.val : ℤ)).length = 2 ∧ pyIntOfStr (pyStr (k.val : ℤ)) = some (k.val : ℤ) := by
  decide

/-- For every one-digit natural number, pyStr gives one character that
parses back to the number. -/
theorem pyStr_one_aux : ∀ k : Fin 10,
    (pyStr (k.val : ℤ)).length = 1 ∧ pyIntOfStr (pyStr (k.val : ℤ)) = some (k.val : ℤ) := by
  decide

/-- Destructured two-digit form of pyStr. -/
theorem pyStr_two (n : ℤ) (h1 : 10 ≤ n) (h2 : n ≤ 99) :
    ∃ c1 c2 : Char, pyStr n = [c1, c2] ∧ pyIntOfStr [c1, c2] = some n := by
  have hn : ((n.toNat : ℕ) : ℤ) = n := by omega
  have hk := pyStr_two_aux ⟨n.toNat, by omega⟩ (by simpa using (by omega : 10 ≤ n.toNat))
  simp only [hn] at hk
  obtain ⟨c1, c2, hc⟩ := List.length_eq_two.mp hk.1
  exact ⟨c1, c2, hc, by rw [← hc]; exact hk.2⟩

/-- Destructured one-digit form of pyStr. -/
theorem pyStr_one (n : ℤ) (h1 : 0 ≤ n) (h2 : n ≤ 9) :
    ∃ c : Char, pyStr n = [c] ∧ pyIntOfStr [c] = some n := by
  have hn : ((n.toNat : ℕ) : ℤ) = n := by omega
  have hk := pyStr_one_aux ⟨n.toNat, by omega⟩
  simp only [hn] at hk
  obtain ⟨c, hc⟩ := List.length_eq_one.mp hk.1
  exact ⟨c, hc, by rw [← hc]; exact hk.2⟩

/-- A digit character is not the minus sign. -/
theorem isDigit_ne_minus {c : Char} (h : c.isDigit = true) : ¬(c = '-') := by
  intro hc
  rw [hc] at h
  exact absurd h (by decide)

/-- Parsing a list of two digit characters. -/
theorem pyIntOfStr_two_digits {c1 c2 : Char} (h1 : c1.isDigit = true) (h2 : c2.isDigit = true) :
    pyIntOfStr [c1, c2] = some ((10 * (c1.toNat - 48) + (c2.toNat - 48) : ℕ) : ℤ) := by
  have hne : (c1 = '-') = False := eq_false (isDigit_ne_minus h1)
  simp [pyIntOfStr, digitsToNat, hne, h1, h2, List.foldl]

/-- Parsing a list of one digit character. -/
theorem pyIntOfStr_one_digit {c : Char} (h : c.isDigit = true) :
    pyIntOfStr [c] = some ((c.toNat - 48 : ℕ) : ℤ) := by
  have hne : (c = '-') = False := eq_false (isDigit_ne_minus h)
  simp [pyIntOfStr, digitsToNat, hne, h, List.foldl]

/-- Claim C5: decoding a well-formed eight-digit standard mesh code returns
the southwest corner of the cell, with latitude
first_lat_idx * (2/3) + secondary_lat_idx * (2/3/8) + standard_lat_idx * (2/3/80)
degrees and longitude
(first_lon_idx + 100) + secondary_lon_idx / 8 + standard_lon_idx / 80
degrees, the indices being the digit values of the code. -/
theorem C5_decode_formula (c0 c1 c2 c3 c4 c5 c6 c7 : Char)
    (h0 : c0.isDigit = true) (h1 : c1.isDigit = true) (h2 : c2.isDigit = true)
    (h3 : c3.isDigit = true) (h4 : c4.isDigit = true) (h5 : c5.isDigit = true)
    (h6 : c6.isDigit = true) (h7 : c7.isDigit = true) :
    calcLonlat [c0, c1, c2, c3, c4, c5, c6, c7] =
      some ((((10 * (c2.toNat - 48) + (c3.toNat - 48) : ℕ) : ℚ) + 100)
              + ((c5.toNat - 48 : ℕ) : ℚ) / 8 + ((c7.toNat - 48 : ℕ) : ℚ) / 80,
            ((10 * (c0.toNat - 48) + (c1.toNat - 48) : ℕ) : ℚ) * (2/3)
              + ((c4.toNat - 48 : ℕ) : ℚ) * (2/3/8) + ((c6.toNat - 48 : ℕ) : ℚ) * (2/3/80)) := by
  have e01 := pyIntOfStr_two_digits h0 h1
  have e23 := pyIntOfStr_two_digits h2 h3
  have e4 := pyIntOfStr_one_digit h4
  have e5 := pyIntOfStr_one_digit h5
  have e6 := pyIntOfStr_one_digit h6
  have e7 := pyIntOfStr_one_digit h7
  unfold calcLonlat meshToFirstLonlat meshToSecandaryLonlat meshToStandardLonlat
  simp only [List.take, List.drop, e01, e23, e4, e5, e6, e7, Option.bind, Option.map]
  refine congrArg some (Prod.ext ?_ ?_) <;> push_cast <;> ring

/-- Witness for claim C5 at the code 60400404. -/
theorem C5_decode_formula_witness :
    calcLonlat ['6', '0', '4', '0', '0', '4', '0', '4'] = some (140.55, 40) := by
  have h := C5_decode_formula '6' '0' '4' '0' '0' '4' '0' '4'
    (by decide) (by decide) (by decide) (by decide)
    (by decide) (by decide) (by decide) (by decide)
  rw [h]
  norm_num [show ('6'.toNat - 48 : ℕ) = 6 from rfl, show ('0'.toNat - 48 : ℕ) = 0 from rfl,
    show ('4'.toNat - 48 : ℕ) = 4 from rfl]

/-- Lower bound on a pyDivmod quotient. -/
theorem pyDivmod_fst_ge (x d : ℚ) (n : ℤ) (hd : 0 < d) (h : (n : ℚ) * d ≤ x) :
    n ≤ (pyDivmod x d).1 := by
  unfold pyDivmod
  exact Int.le_floor.mpr ((le_div_iff₀ hd).mpr h)

/-- Upper bound on a pyDivmod quotient. -/
theorem pyDivmod_fst_lt (x d : ℚ) (n : ℤ) (hd : 0 < d) (h : x < (n : ℚ) * d) :
    (pyDivmod x d).1 < n := by
  unfold pyDivmod
  exact Int.floor_lt.mpr ((div_lt_iff₀ hd).mpr h)

/-- Decoding the concatenated digit strings of six indices, the first two
of two digits and the rest of one digit, recovers the indices in the decode
formula of ReverseMeshCode. -/
theorem calcLonlat_append (P u q v r w : ℤ)
    (hP1 : 10 ≤ P) (hP2 : P ≤ 99) (hu1 : 10 ≤ u) (hu2 : u ≤ 99)
    (hq1 : 0 ≤ q) (hq2 : q ≤ 9) (hv1 : 0 ≤ v) (hv2 : v ≤ 9)
    (hr1 : 0 ≤ r) (hr2 : r ≤ 9) (hw1 : 0 ≤ w) (hw2 : w ≤ 9) :
    calcLonlat (pyStr P ++ pyStr u ++ pyStr q ++ pyStr v ++ pyStr r ++ pyStr w) =
      some ((u : ℚ) + 100 + (v : ℚ) / 8 + (w : ℚ) / 8 / 10,
            (P : ℚ) * 2 / 3 + (q : ℚ) * 2 / 3 / 8 + (r : ℚ) * 2 / 3 / 8 / 10) := by
  obtain ⟨a1, a2, ha, hpa⟩ := pyStr_two P hP1 hP2
  obtain ⟨b1, b2, hb, hpb⟩ := pyStr_two u hu1 hu2
  obtain ⟨cq, hcq, hpq⟩ := pyStr_one q hq1 hq2
  obtain ⟨cv, hcv, hpv⟩ := pyStr_one v hv1 hv2
  obtain ⟨cr, hcr, hpr⟩ := pyStr_one r hr1 hr2
  obtain ⟨cw, hcw, hpw⟩ := pyStr_one w hw1 hw2
  rw [ha, hb, hcq, hcv, hcr, hcw]
  show calcLonlat [a1, a2, b1, b2, cq, cv, cr, cw] = _
  unfold calcLonlat meshToFirstLonlat meshToSecandaryLonlat meshToStandardLonlat
  simp only [List.take, List.drop, hpa, hpb, hpq, hpv, hpr, hpw, Option.bind, Option.map]
  refine congrArg some (Prod.ext ?_ ?_) <;> push_cast <;> ring

/-- Counterexample to claim C8 as stated: the point (105, 35) lies in the
claimed encode domain, but its first-level longitude index 5 has a single
digit, so the standard code has only seven characters and decoding it fails
(Python int() of the empty eighth slice raises ValueError) instead of
returning a point inside the cell. -/
theorem C8_counterexample :
    (meshCode (105:ℚ) (35:ℚ)).standard_mesh_code = "5254000".toList ∧
    calcLonlat "5254000".toList = none := by
  constructor
  · rw [meshCode_standard_eval (105:ℚ) (35:ℚ) 52 4 0 20 0 0 105 5 0 0 0 0
      (pyDivmod_eval _ _ _ _ (by norm_num) (by norm_num) (by norm_num) (by norm_num))
      (pyDivmod_eval _ _ _ _ (by norm_num) (by norm_num) (by norm_num) (by norm_num))
      (pyDivmod_eval _ _ _ _ (by norm_num) (by norm_num) (by norm_num) (by norm_num))
      (pyInt_eval (by norm_num) (by norm_num) (by norm_num))
      (pyInt_eval_cast _ _ (by norm_num))
      (pyDivmod_eval _ _ _ _ (by norm_num) (by norm_num) (by norm_num) (by norm_num))
      (pyDivmod_eval _ _ _ _ (by norm_num) (by norm_num) (by norm_num) (by norm_num))]
    decide
  · decide

/-- Claim C8 (amended): for longitudes in [110, 180) and latitudes in
[20/3, 200/3) - the part of the stated domain where both first-level
indices have two digits, so the standard code really has eight digits -
decoding the encoded standard mesh code returns the southwest corner of the
standard cell containing the point: corner at most the point, point within
1/80 degree of longitude and 1/120 degree of latitude beyond it.  Moreover
the round trip is not the identity: at (140.74128, 40.82416) it returns a
different point. -/
theorem C8_roundtrip_southwest :
    (∀ lon lat : ℚ, 110 ≤ lon → lon < 180 → 20/3 ≤ lat → lat < 200/3 →
      ∃ p : ℚ × ℚ, calcLonlat (meshCode lon lat).standard_mesh_code = some p ∧
        p.1 ≤ lon ∧ lon < p.1 + 1/80 ∧ p.2 ≤ lat ∧ lat < p.2 + 1/120) ∧
    calcLonlat (meshCode (140.74128:ℚ) (40.82416:ℚ)).standard_mesh_code ≠
      some (140.74128, 40.82416) := by
  constructor
  · intro lon lat h110 h180 hlat1 hlat2
    have hlon0 : (0:ℚ) ≤ lon := by linarith
    -- latitude chain
    obtain ⟨ha0, ha40, haeq⟩ := pyDivmod_bounds (lat * 60) 40 (by norm_num)
    obtain ⟨hb0, hb5, hbeq⟩ := pyDivmod_bounds (pyDivmod (lat * 60) 40).2 5 (by norm_num)
    obtain ⟨hc0, hc30, hceq⟩ :=
      pyDivmod_bounds ((pyDivmod (pyDivmod (lat * 60) 40).2 5).2 * 60) 30 (by norm_num)
    have hP1 : 10 ≤ (pyDivmod (lat * 60) 40).1 :=
      pyDivmod_fst_ge _ _ _ (by norm_num) (by push_cast; linarith)
    have hP2 : (pyDivmod (lat * 60) 40).1 ≤ 99 := by
      have := pyDivmod_fst_lt (lat * 60) 40 100 (by norm_num) (by push_cast; linarith)
      omega
    have hq1 : 0 ≤ (pyDivmod (pyDivmod (lat * 60) 40).2 5).1 :=
      pyDivmod_fst_ge _ _ _ (by norm_num) (by push_cast; linarith)
    have hq2 : (pyDivmod (pyDivmod (lat * 60) 40).2 5).1 ≤ 9 := by
      have := pyDivmod_fst_lt (pyDivmod (lat * 60) 40).2 5 8 (by norm_num)
        (by push_cast; linarith)
      omega
    have hr1 : 0 ≤ (pyDivmod ((pyDivmod (pyDivmod (lat * 60) 40).2 5).2 * 60) 30).1 :=
      pyDivmod_fst_ge _ _ _ (by norm_num) (by push_cast; linarith)
    have hr2 : (pyDivmod ((pyDivmod (pyDivmod (lat * 60) 40).2 5).2 * 60) 30).1 ≤ 9 := by
      have := pyDivmod_fst_lt ((pyDivmod (pyDivmod (lat * 60) 40).2 5).2 * 60) 30 10
        (by norm_num) (by push_cast; linarith)
      omega
    -- longitude chain
    have hieq : pyInt lon = ⌊lon⌋ := by
      unfold pyInt
      rw [if_pos hlon0]
    have hfl1 : (110:ℤ) ≤ ⌊lon⌋ := Int.le_floor.mpr (by exact_mod_cast h110)
    have hfl2 : ⌊lon⌋ < 180 := Int.floor_lt.mpr (by exact_mod_cast h180)
    have hfle : (⌊lon⌋ : ℚ) ≤ lon := Int.floor_le lon
    have hflt : lon < (⌊lon⌋ : ℚ) + 1 := Int.lt_floor_add_one lon
    have hf_eq : (lonFI lon).1 = lon - (⌊lon⌋ : ℚ) := by
      show lon - (pyInt lon : ℚ) = lon - (⌊lon⌋ : ℚ)
      rw [hieq]
    have hu_val : lonU lon = ⌊lon⌋ - 100 := by
      show pyInt ((pyInt lon : ℚ) - 100) = ⌊lon⌋ - 100
      rw [hieq]
      exact pyInt_eval_cast _ _ (by push_cast; ring)
    obtain ⟨hg0, hg75, hgeq⟩ := pyDivmod_bounds ((lonFI lon).1 * 60) (15/2) (by norm_num)
    obtain ⟨hh0, hh45, hheq⟩ :=
      pyDivmod_bounds ((pyDivmod ((lonFI lon).1 * 60) (15/2)).2 * 60) 45 (by norm_num)
    have hv1 : 0 ≤ (pyDivmod ((lonFI lon).1 * 60) (15/2)).1 := by
      refine pyDivmod_fst_ge _ _ _ (by norm_num) ?_
      rw [hf_eq]
      push_cast
      linarith
    have hv2 : (pyDivmod ((lonFI lon).1 * 60) (15/2)).1 ≤ 9 := by
      have : (pyDivmod ((lonFI lon).1 * 60) (15/2)).1 < 8 := by
        refine pyDivmod_fst_lt _ _ _ (by norm_num) ?_
        rw [hf_eq]
        push_cast
        linarith
      omega
    have hw1 : 0 ≤ (pyDivmod ((pyDivmod ((lonFI lon).1 * 60) (15/2)).2 * 60) 45).1 :=
      pyDivmod_fst_ge _ _ _ (by norm_num) (by push_cast; linarith)
    have hw2 : (pyDivmod ((pyDivmod ((lonFI lon).1 * 60) (15/2)).2 * 60) 45).1 ≤ 9 := by
      have := pyDivmod_fst_lt ((pyDivmod ((lonFI lon).1 * 60) (15/2)).2 * 60) 45 10
        (by norm_num) (by push_cast; linarith)
      omega
    rw [meshCode_standard_eq]
    rw [hu_val]
    simp only [latP, latQ, latR, lonV, lonW]
    rw [calcLonlat_append ((pyDivmod (lat * 60) 40).1) (⌊lon⌋ - 100)
      ((pyDivmod (pyDivmod (lat * 60) 40).2 5).1)
      ((pyDivmod ((lonFI lon).1 * 60) (15/2)).1)
      ((pyDivmod ((pyDivmod (pyDivmod (lat * 60) 40).2 5).2 * 60) 30).1)
      ((pyDivmod ((pyDivmod ((lonFI lon).1 * 60) (15/2)).2 * 60) 45).1)
      hP1 hP2 (by omega) (by omega) hq1 hq2 hv1 hv2 hr1 hr2 hw1 hw2]
    have hlon_eq : lon = (⌊lon⌋ : ℚ) + (lonFI lon).1 := by
      rw [hf_eq]
      ring
    refine ⟨_, rfl, ?_, ?_, ?_, ?_⟩
    · show ((⌊lon⌋ - 100 : ℤ) : ℚ) + 100 + _ / 8 + _ / 8 / 10 ≤ lon
      push_cast
      linarith
    · show lon < ((⌊lon⌋ - 100 : ℤ) : ℚ) + 100 + _ / 8 + _ / 8 / 10 + 1/80
      push_cast
      linarith
    · show ((pyDivmod (lat * 60) 40).1 : ℚ) * 2 / 3 + _ * 2 / 3 / 8 + _ * 2 / 3 / 8 / 10 ≤ lat
      linarith
    · show lat < ((pyDivmod (lat * 60) 40).1 : ℚ) * 2 / 3 + _ * 2 / 3 / 8
        + _ * 2 / 3 / 8 / 10 + 1/120
      linarith
  · rw [meshCode_standard_eval (140.74128:ℚ) (40.82416:ℚ) 61 1 8 (94496/10000)
      (44496/10000) (26976/1000) 140 40 5 9 (69768/10000) (13608/1000)
      (pyDivmod_eval _ _ _ _ (by norm_num) (by norm_num) (by norm_num) (by norm_num))
      (pyDivmod_eval _ _ _ _ (by norm_num) (by norm_num) (by norm_num) (by norm_num))
      (pyDivmod_eval _ _ _ _ (by norm_num) (by norm_num) (by norm_num) (by norm_num))
      (pyInt_eval (by norm_num) (by norm_num) (by norm_num))
      (pyInt_eval_cast _ _ (by norm_num))
      (pyDivmod_eval _ _ _ _ (by norm_num) (by norm_num) (by norm_num) (by norm_num))
      (pyDivmod_eval _ _ _ _ (by norm_num) (by norm_num) (by norm_num) (by norm_num))]
    rw [calcLonlat_append 61 40 1 5 8 9 (by norm_num) (by norm_num) (by norm_num)
      (by norm_num) (by norm_num) (by norm_num) (by norm_num) (by norm_num)
      (by norm_num) (by norm_num) (by norm_num) (by norm_num)]
    simp only [ne_eq, Option.some.injEq, Prod.mk.injEq, not_and]
    intro hlon
    norm_num at hlon

/-- Witness for the amended claim C8 at the point (141, 40). -/
theorem C8_roundtrip_southwest_witness :
    ∃ p : ℚ × ℚ, calcLonlat (meshCode (141:ℚ) (40:ℚ)).standard_mesh_code = some p ∧
      p.1 ≤ 141 ∧ (141:ℚ) < p.1 + 1/80 ∧ p.2 ≤ 40 ∧ (40:ℚ) < p.2 + 1/120 :=
  C8_roundtrip_southwest.1 141 40 (by norm_num) (by norm_num) (by norm_num) (by norm_num)

/-- pyRound1 of an exact integer value is that value. -/
theorem pyRound1_cast (n : ℤ) : pyRound1 ((n : ℚ)) = (n : ℚ) := by
  rw [pyRound1_eval ((n : ℚ)) (10 * n) (10 * n) (by push_cast; linarith)
    (by push_cast; linarith) (by push_cast; linarith) (by push_cast; linarith)
    (by push_cast; linarith)]
  push_cast
  ring

/-- Evaluation of the four-corner cell design from the values of the two
grid truncations. -/
theorem semidynamicMeshDesign_eval (lon lat : ℚ) (m n : ℤ)
    (hm : pyInt (pyRound1 (lon * 3600) / 225) = m)
    (hn : pyInt (pyRound1 (lat * 3600) / 150) = n) :
    semidynamicMeshDesign lon lat = MeshDesigns.mk
      (MeshDesign.mk "lower_left" ((m : ℚ) * 225) ((n : ℚ) * 150)
        (meshCode ((m : ℚ) * 225 / 3600) ((n : ℚ) * 150 / 3600)).standard_mesh_code)
      (MeshDesign.mk "lower_right" ((m : ℚ) * 225 + 225) ((n : ℚ) * 150 + 0)
        (meshCode (((m : ℚ) * 225 + 225) / 3600)
          (((n : ℚ) * 150 + 0) / 3600)).standard_mesh_code)
      (MeshDesign.mk "upper_left" ((m : ℚ) * 225 + 0) ((n : ℚ) * 150 + 150)
        (meshCode (((m : ℚ) * 225 + 0) / 3600)
          (((n : ℚ) * 150 + 150) / 3600)).standard_mesh_code)
      (MeshDesign.mk "upper_right" ((m : ℚ) * 225 + 225) ((n : ℚ) * 150 + 150)
        (meshCode (((m : ℚ) * 225 + 225) / 3600)
          (((n : ℚ) * 150 + 150) / 3600)).standard_mesh_code) := by
  unfold semidynamicMeshDesign adjustMeshCode
  simp only [hm, hn]

/-- Grid truncation value for longitude 141 degrees. -/
theorem c2hm_A : pyInt (pyRound1 ((141:ℚ) * 3600) / 225) = 2256 := by
  rw [show ((141:ℚ) * 3600) = ((507600:ℤ) : ℚ) by norm_num, pyRound1_cast]
  exact pyInt_eval_cast _ _ (by norm_num)

/-- Grid truncation value for longitude 141.25 degrees. -/
theorem c2hm_B : pyInt (pyRound1 ((141.25:ℚ) * 3600) / 225) = 2260 := by
  rw [show ((141.25:ℚ) * 3600) = ((508500:ℤ) : ℚ) by norm_num, pyRound1_cast]
  exact pyInt_eval_cast _ _ (by norm_num)

/-- Grid truncation value for latitude 40 degrees. -/
theorem c2hn : pyInt (pyRound1 ((40:ℚ) * 3600) / 150) = 960 := by
  rw [show ((40:ℚ) * 3600) = ((144000:ℤ) : ℚ) by norm_num, pyRound1_cast]
  exact pyInt_eval_cast _ _ (by norm_num)

/-- Standard mesh code of the lower-left corner of the cell of (141, 40). -/
theorem c2code_ll :
    (meshCode (((2256:ℤ) : ℚ) * 225 / 3600)
      (((960:ℤ) : ℚ) * 150 / 3600)).standard_mesh_code = "60410000".toList := by
  rw [meshCode_standard_eval _ _ 60 0 0 0 0 0 141 41 0 0 0 0
    (pyDivmod_eval _ _ _ _ (by norm_num) (by norm_num) (by norm_num) (by norm_num))
    (pyDivmod_eval _ _ _ _ (by norm_num) (by norm_num) (by norm_num) (by norm_num))
    (pyDivmod_eval _ _ _ _ (by norm_num) (by norm_num) (by norm_num) (by norm_num))
    (pyInt_eval_cast _ _ (by norm_num))
    (pyInt_eval_cast _ _ (by norm_num))
    (pyDivmod_eval _ _ _ _ (by norm_num) (by norm_num) (by norm_num) (by norm_num))
    (pyDivmod_eval _ _ _ _ (by norm_num) (by norm_num) (by norm_num) (by norm_num))]
  decide

/-- Standard mesh code of the lower-right corner of the cell of (141, 40). -/
theorem c2code_lr :
    (meshCode ((((2256:ℤ) : ℚ) * 225 + 225) / 3600)
      ((((960:ℤ) : ℚ) * 150 + 0) / 3600)).standard_mesh_code = "60410005".toList := by
  rw [meshCode_standard_eval _ _ 60 0 0 0 0 0 141 41 0 5 (15/4) 0
    (pyDivmod_eval _ _ _ _ (by norm_num) (by norm_num) (by norm_num) (by norm_num))
    (pyDivmod_eval _ _ _ _ (by norm_num) (by norm_num) (by norm_num) (by norm_num))
    (pyDivmod_eval _ _ _ _ (by norm_num) (by norm_num) (by norm_num) (by norm_num))
    (pyInt_eval (by norm_num) (by norm_num) (by norm_num))
    (pyInt_eval_cast _ _ (by norm_num))
    (pyDivmod_eval _ _ _ _ (by norm_num) (by norm_num) (by norm_num) (by norm_num))
    (pyDivmod_eval _ _ _ _ (by norm_num) (by norm_num) (by norm_num) (by norm_num))]
  decide

/-- Standard mesh code of the upper-left corner of the cell of (141, 40). -/
theorem c2code_ul :
    (meshCode ((((2256:ℤ) : ℚ) * 225 + 0) / 3600)
      ((((960:ℤ) : ℚ) * 150 + 150) / 3600)).standard_mesh_code = "60410050".toList := by
  rw [meshCode_standard_eval _ _ 60 0 5 (5/2) (5/2) 0 141 41 0 0 0 0
    (pyDivmod_eval _ _ _ _ (by norm_num) (by norm_num) (by norm_num) (by norm_num))
    (pyDivmod_eval _ _ _ _ (by norm_num) (by norm_num) (by norm_num) (by norm_num))
    (pyDivmod_eval _ _ _ _ (by norm_num) (by norm_num) (by norm_num) (by norm_num))
    (pyInt_eval_cast _ _ (by norm_num))
    (pyInt_eval_cast _ _ (by norm_num))
    (pyDivmod_eval _ _ _ _ (by norm_num) (by norm_num) (by norm_num) (by norm_num))
    (pyDivmod_eval _ _ _ _ (by norm_num) (by norm_num) (by norm_num) (by norm_num))]
  decide

/-- Standard mesh code of the upper-right corner of the cell of (141, 40). -/
theorem c2code_ur :
    (meshCode ((((2256:ℤ) : ℚ) * 225 + 225) / 3600)
      ((((960:ℤ) : ℚ) * 150 + 150) / 3600)).standard_mesh_code = "60410055".toList := by
  rw [meshCode_standard_eval _ _ 60 0 5 (5/2) (5/2) 0 141 41 0 5 (15/4) 0
    (pyDivmod_eval _ _ _ _ (by norm_num) (by norm_num) (by norm_num) (by norm_num))
    (pyDivmod_eval _ _ _ _ (by norm_num) (by norm_num) (by norm_num) (by norm_num))
    (pyDivmod_eval _ _ _ _ (by norm_num) (by norm_num) (by norm_num) (by norm_num))
    (pyInt_eval (by norm_num) (by norm_num) (by norm_num))
    (pyInt_eval_cast _ _ (by norm_num))
    (pyDivmod_eval _ _ _ _ (by norm_num) (by norm_num) (by norm_num) (by norm_num))
    (pyDivmod_eval _ _ _ _ (by norm_num) (by norm_num) (by norm_num) (by norm_num))]
  decide

/-- Standard mesh code of the lower-left corner of the cell of
(141.25, 40), which is absent from the parameter table tblC2. -/
theorem c2code_llB :
    (meshCode (((2260:ℤ) : ℚ) * 225 / 3600)
      (((960:ℤ) : ℚ) * 150 / 3600)).standard_mesh_code = "60410200".toList := by
  rw [meshCode_standard_eval _ _ 60 0 0 0 0 0 141 41 2 0 0 0
    (pyDivmod_eval _ _ _ _ (by norm_num) (by norm_num) (by norm_num) (by norm_num))
    (pyDivmod_eval _ _ _ _ (by norm_num) (by norm_num) (by norm_num) (by norm_num))
    (pyDivmod_eval _ _ _ _ (by norm_num) (by norm_num) (by norm_num) (by norm_num))
    (pyInt_eval (by norm_num) (by norm_num) (by norm_num))
    (pyInt_eval_cast _ _ (by norm_num))
    (pyDivmod_eval _ _ _ _ (by norm_num) (by norm_num) (by norm_num) (by norm_num))
    (pyDivmod_eval _ _ _ _ (by norm_num) (by norm_num) (by norm_num) (by norm_num))]
  decide

/-- The single-point correction at (141, 40) with table tblC2 succeeds,
applying the lower-left Delta exactly. -/
theorem c2single_A : correction2dSingle tblC2 141 40 true =
    Except.ok (140.9999, 40.00005) := by
  unfold correction2dSingle
  rw [semidynamicMeshDesign_eval 141 40 2256 960 c2hm_A c2hn]
  simp only [c2code_ll, c2code_lr, c2code_ul, c2code_ur]
  rw [show getDelta tblC2 ("60410000".toList) = Except.ok (Delta.mk (9/25) (-(9/50)) 0)
      from rfl,
    show getDelta tblC2 ("60410005".toList) = Except.ok (Delta.mk (9/25) (-(9/50)) 0)
      from rfl,
    show getDelta tblC2 ("60410050".toList) = Except.ok (Delta.mk (9/25) (-(9/50)) 0)
      from rfl,
    show getDelta tblC2 ("60410055".toList) = Except.ok (Delta.mk (9/25) (-(9/50)) 0)
      from rfl]
  simp only [Except.bind, Except.map, Except.ok.injEq, Prod.mk.injEq]
  norm_num [interp2d, wLL, wLR, wUR, wUL]

/-- The single-point correction at (141.25, 40) with table tblC2 aborts
with the KeyError naming the missing lower-left mesh code. -/
theorem c2single_B : correction2dSingle tblC2 141.25 40 true =
    Except.error "Mesh code 60410200 not found in parameters." := by
  unfold correction2dSingle
  rw [semidynamicMeshDesign_eval 141.25 40 2260 960 c2hm_B c2hn]
  simp only [c2code_llB]
  rw [show getDelta tblC2 ("60410200".toList) =
      Except.error "Mesh code 60410200 not found in parameters." from rfl]
  simp only [Except.bind]

/-- Claim C2, behavior of the source on a batch with one failing point: the
batch [(141, 40)] alone succeeds with a result for its point, but the batch
[(141, 40), (141.25, 40)], whose second point has no parameters, aborts as
a whole with the KeyError of the second point, silently dropping the
result already computed for the first point instead of surfacing per-point
results. -/
theorem C2_batch_abort :
    correction2dBatch tblC2 [141] [40] true = Except.ok ([140.9999], [40.00005]) ∧
    correction2dBatch tblC2 [141, 141.25] [40, 40] true =
      Except.error "Mesh code 60410200 not found in parameters." := by
  constructor
  · show (correctionList tblC2 true [((141:ℚ), (40:ℚ))]).map _ = _
    rw [show correctionList tblC2 true [((141:ℚ), (40:ℚ))] =
        (correction2dSingle tblC2 141 40 true).bind fun r =>
          (correctionList tblC2 true []).map fun rs => r :: rs from rfl]
    rw [c2single_A]
    rfl
  · show (correctionList tblC2 true [((141:ℚ), (40:ℚ)), ((141.25:ℚ), (40:ℚ))]).map _ = _
    rw [show correctionList tblC2 true [((141:ℚ), (40:ℚ)), ((141.25:ℚ), (40:ℚ))] =
        (correction2dSingle tblC2 141 40 true).bind fun r =>
          (correctionList tblC2 true [((141.25:ℚ), (40:ℚ))]).map fun rs => r :: rs from rfl]
    rw [c2single_A]
    rw [show correctionList tblC2 true [((141.25:ℚ), (40:ℚ))] =
        (correction2dSingle tblC2 141.25 40 true).bind fun r =>
          (correctionList tblC2 true []).map fun rs => r :: rs from rfl]
    rw [c2single_B]
    rfl

end ReadGNSS
